import Mathlib

/-!
Verification of the Chinese lunisolar calendar engine
(`divination/calendar.py`).

The Python code is embedded shallowly:

* Python `int`s become `Int`; Python `//` and `%` (floor division and
  floor modulus, for the positive divisors used throughout) become
  `Int` division `/` and `%` (Euclidean division, which agrees with
  floor division for positive divisors).
* Python `float` values appearing in the calendrical arithmetic are
  modelled as exact rationals `ℚ`; decimal literals such as `30.6001`
  denote the corresponding exact rationals.  Where a claim's truth
  depends on binary64 rounding, the affected operations are also
  modelled at full IEEE 754 fidelity: `fl64` is round-to-nearest-even
  at 53 bits, and `gregorian_to_julian64` / `julian_to_gregorian64`
  apply it after every float operation of the two converters.
* Python `int(x)` applied to a float (truncation toward zero) is
  modelled by `pyInt`.
* The transcendental astronomy (`math.sin` series in
  `calculate_new_moon` / `calculate_solar_longitude`) cannot be
  evaluated exactly; where a claim is nevertheless decidable from the
  surrounding control flow, that control flow is embedded with the
  astronomical quantity abstracted as an explicit parameter (an
  oracle), and this is noted on the definition.
-/

/-- Python `int(x)` on a float: truncation toward zero. -/
def pyInt (q : ℚ) : Int := if 0 ≤ q then ⌊q⌋ else ⌈q⌉

/-- A civil timestamp as consumed and produced by the engine: the six
fields of a Python `datetime` (no timezone). -/
structure DateTime where
  year : Int
  month : Int
  day : Int
  hour : Int
  minute : Int
  second : Int
deriving DecidableEq, Repr

/-- Gregorian leap-year rule, as enforced by Python `datetime`. -/
def isLeapYearG (y : Int) : Prop := (y % 4 = 0 ∧ y % 100 ≠ 0) ∨ y % 400 = 0

instance (y : Int) : Decidable (isLeapYearG y) := by
  unfold isLeapYearG; infer_instance

/-- Number of days of a Gregorian month (Python `datetime` validity). -/
def daysInMonthG (y m : Int) : Int :=
  if m = 2 then (if isLeapYearG y then 29 else 28)
  else if m = 4 ∨ m = 6 ∨ m = 9 ∨ m = 11 then 30
  else 31

/-- The timestamps representable by a Python `datetime` value: fields
in range and a real calendar day.  (Python `datetime` also caps the
year at 9999; the year bounds relevant to each claim are stated in the
theorems.) -/
def ValidDateTime (d : DateTime) : Prop :=
  1 ≤ d.month ∧ d.month ≤ 12 ∧ 1 ≤ d.day ∧ d.day ≤ daysInMonthG d.year d.month ∧
    0 ≤ d.hour ∧ d.hour < 24 ∧ 0 ≤ d.minute ∧ d.minute < 60 ∧
    0 ≤ d.second ∧ d.second < 60

instance (d : DateTime) : Decidable (ValidDateTime d) := by
  unfold ValidDateTime; infer_instance

/-- Embedding of `ChineseLunarCalendar.gregorian_to_julian`: Gregorian date to
Julian Day number (a real, with the fractional part carrying the time
of day; the result transitions at civil midnight thanks to the `- 0.5`).
This is the exact-arithmetic idealization: every float operation is
exact rational arithmetic.  `gregorian_to_julian64` is the binary64
refinement that rounds after every operation. -/
def gregorian_to_julian (date : DateTime) : ℚ :=
  let a : Int := (14 - date.month) / 12
  let y : Int := date.year + 4800 - a
  let m : Int := date.month + 12 * a - 3
  let jdn : Int :=
    date.day + (153 * m + 2) / 5 + 365 * y + y / 4 - y / 100 + y / 400 - 32045
  let fraction : ℚ := ((date.hour : ℚ) + (date.minute : ℚ) / 60 + (date.second : ℚ) / 3600) / 24
  (jdn : ℚ) + fraction - 0.5

/-- Embedding of `ChineseLunarCalendar.julian_to_gregorian`: Julian Day back to a
civil timestamp (Meeus inverse algorithm; `int(...)` is `pyInt`,
`//` on ints is integer division).  This is the exact-arithmetic
idealization; `julian_to_gregorian64` is the binary64 refinement that
rounds after every float operation. -/
def julian_to_gregorian (jd0 : ℚ) : DateTime :=
  let jd : ℚ := jd0 + 0.5
  let z : Int := pyInt jd
  let f : ℚ := jd - (z : ℚ)
  let a : Int :=
    if z < 2299161 then z
    else
      let alpha : Int := pyInt (((z : ℚ) - 1867216.25) / 36524.25)
      z + 1 + alpha - alpha / 4
  let b : Int := a + 1524
  let c : Int := pyInt (((b : ℚ) - 122.1) / 365.25)
  let d : Int := pyInt ((365.25 : ℚ) * (c : ℚ))
  let e : Int := pyInt (((b : ℚ) - (d : ℚ)) / 30.6001)
  let day : Int := b - d - pyInt ((30.6001 : ℚ) * (e : ℚ))
  let month : Int := if e < 14 then e - 1 else e - 13
  let year : Int := if month > 2 then c - 4716 else c - 4715
  let hours : ℚ := f * 24
  let hour : Int := pyInt hours
  let minutes : ℚ := (hours - (hour : ℚ)) * 60
  let minute : Int := pyInt minutes
  let second : Int := pyInt ((minutes - (minute : ℚ)) * 60)
  ⟨year, month, day, hour, minute, second⟩

/-- The integer part of `gregorian_to_julian` (the Julian Day number at
the following noon); proof-side abbreviation of the source formula. -/
def jdnInt (date : DateTime) : Int :=
  date.day + (153 * (date.month + 12 * ((14 - date.month) / 12) - 3) + 2) / 5 +
    365 * (date.year + 4800 - (14 - date.month) / 12) +
    (date.year + 4800 - (14 - date.month) / 12) / 4 -
    (date.year + 4800 - (14 - date.month) / 12) / 100 +
    (date.year + 4800 - (14 - date.month) / 12) / 400 - 32045

/-- The fractional (time-of-day) part of `gregorian_to_julian`. -/
def timeFrac (date : DateTime) : ℚ :=
  ((3600 * date.hour + 60 * date.minute + date.second : Int) : ℚ) / 86400

/-- Round to nearest, ties to even, at 53 significant bits: the value
an IEEE 754 binary64 (Python float) operation returns for an exact
rational result `q`.  Overflow and subnormals are ignored; every
quantity in the modelled program is far inside the normal range. -/
def fl64 (q : ℚ) : ℚ :=
  if q = 0 then 0
  else
    let s : ℚ := |q|
    let E : ℤ := Int.log 2 s
    let u : ℚ := 2 ^ (E - 52)
    let m : ℤ := ⌊s / u⌋
    let r : ℚ := s / u - (m : ℚ)
    let n : ℤ := if r < 1 / 2 then m else if 1 / 2 < r then m + 1
      else if m % 2 = 0 then m else m + 1
    (if q < 0 then (-1 : ℚ) else 1) * (n : ℚ) * u

/-- Binary64 refinement of `gregorian_to_julian`: the same source
lines with every float operation rounded by `fl64`, in Python's
evaluation order.  Integer-to-float conversions are exact here
(magnitudes below 2^53) and appear as plain casts; the decimal
literal 0.5 is exactly representable and appears unwrapped. -/
def gregorian_to_julian64 (date : DateTime) : ℚ :=
  let a : Int := (14 - date.month) / 12
  let y : Int := date.year + 4800 - a
  let m : Int := date.month + 12 * a - 3
  let jdn : Int :=
    date.day + (153 * m + 2) / 5 + 365 * y + y / 4 - y / 100 + y / 400 - 32045
  let fraction : ℚ :=
    fl64 (fl64 (fl64 ((date.hour : ℚ) + fl64 ((date.minute : ℚ) / 60)) +
      fl64 ((date.second : ℚ) / 3600)) / 24)
  fl64 (fl64 ((jdn : ℚ) + fraction) - 0.5)

/-- Binary64 refinement of `julian_to_gregorian`: the same source
lines with every float operation rounded by `fl64`.  The decimal
literals 0.5, 1867216.25, 36524.25 and 365.25 are exactly
representable in binary64 and appear unwrapped; 122.1 and 30.6001 are
not and appear as `fl64` of the exact decimal.  Integer arithmetic
(`z`, `a`, `b`, `day`, `month`, `year` and the int-to-float
conversions, all below 2^53) is exact. -/
def julian_to_gregorian64 (jd0 : ℚ) : DateTime :=
  let jd : ℚ := fl64 (jd0 + 0.5)
  let z : Int := pyInt jd
  let f : ℚ := fl64 (jd - (z : ℚ))
  let a : Int :=
    if z < 2299161 then z
    else
      let alpha : Int := pyInt (fl64 (fl64 ((z : ℚ) - 1867216.25) / 36524.25))
      z + 1 + alpha - alpha / 4
  let b : Int := a + 1524
  let c : Int := pyInt (fl64 (fl64 ((b : ℚ) - fl64 122.1) / 365.25))
  let d : Int := pyInt (fl64 ((365.25 : ℚ) * (c : ℚ)))
  let e : Int := pyInt (fl64 (((b - d : Int) : ℚ) / fl64 30.6001))
  let day : Int := b - d - pyInt (fl64 (fl64 30.6001 * (e : ℚ)))
  let month : Int := if e < 14 then e - 1 else e - 13
  let year : Int := if month > 2 then c - 4716 else c - 4715
  let hours : ℚ := fl64 (f * 24)
  let hour : Int := pyInt hours
  let minutes : ℚ := fl64 (fl64 (hours - (hour : ℚ)) * 60)
  let minute : Int := pyInt minutes
  let second : Int := pyInt (fl64 (fl64 (minutes - (minute : ℚ)) * 60))
  ⟨year, month, day, hour, minute, second⟩

/-- Integer form of the `alpha` of `julian_to_gregorian`:
`pyInt ((z - 1867216.25) / 36524.25)` for an integer `z ≥ 0`
(1867216.25 = 7468865/4, 36524.25 = 146097/4). -/
def dfj_alpha (z : Int) : Int := (4 * z - 7468865) / 146097

def dfj_a (z : Int) : Int := z + 1 + dfj_alpha z - dfj_alpha z / 4

def dfj_b (z : Int) : Int := dfj_a z + 1524

/-- Integer form of `c = pyInt ((b - 122.1) / 365.25)`
(= (20 b − 2442) / 7305 exactly). -/
def dfj_c (z : Int) : Int := (20 * dfj_b z - 2442) / 7305

/-- Integer form of `d = pyInt (365.25 * c)`. -/
def dfj_d (z : Int) : Int := 1461 * dfj_c z / 4

/-- Integer form of `e = pyInt ((b - d) / 30.6001)`. -/
def dfj_e (z : Int) : Int := 10000 * (dfj_b z - dfj_d z) / 306001

def dfj_day (z : Int) : Int := dfj_b z - dfj_d z - 306001 * dfj_e z / 10000

def dfj_month (z : Int) : Int := if dfj_e z < 14 then dfj_e z - 1 else dfj_e z - 13

def dfj_year (z : Int) : Int :=
  if dfj_month z > 2 then dfj_c z - 4716 else dfj_c z - 4715

/-- An Earthly Branch, reduced to the fields the verified claims use:
the zodiac label and the `hour_range` pair `(start, end)`. -/
structure EarthlyBranch where
  zodiac_english : String
  hour_start : Int
  hour_end : Int
deriving DecidableEq, Repr

/-- Embedding of `EarthlyBranch.is_active_time`: whether an hour falls in this
branch's period; a range with start > end wraps midnight. -/
def EarthlyBranch.is_active_time (b : EarthlyBranch) (hour : Int) : Bool :=
  if b.hour_start ≤ b.hour_end then decide (b.hour_start ≤ hour ∧ hour < b.hour_end)
  else decide (hour ≥ b.hour_start ∨ hour < b.hour_end)

/-- The twelve Earthly Branches of `EarthlyBranches.__init__`, in list
order, with their `hour_range` values. -/
def branches : List EarthlyBranch :=
  [⟨"Rat", 23, 1⟩, ⟨"Ox", 1, 3⟩, ⟨"Tiger", 3, 5⟩, ⟨"Rabbit", 5, 7⟩,
    ⟨"Dragon", 7, 9⟩, ⟨"Snake", 9, 11⟩, ⟨"Horse", 11, 13⟩, ⟨"Goat", 13, 15⟩,
    ⟨"Monkey", 15, 17⟩, ⟨"Rooster", 17, 19⟩, ⟨"Dog", 19, 21⟩, ⟨"Pig", 21, 23⟩]

/-- Embedding of `EarthlyBranches.get_by_hour`: first branch whose period contains
the hour (`None` when no branch matches). -/
def get_by_hour (hour : Int) : Option EarthlyBranch :=
  branches.find? (fun branch => branch.is_active_time hour)

/-- Embedding of `HeavenlyStems.get_by_index` reduced to the stem's index:
the lookup takes `index % 10`. -/
def stems_get_by_index (index : Int) : Int := index % 10

/-- Embedding of `EarthlyBranches.get_by_index` reduced to the branch's index:
the lookup takes `index % 12`. -/
def branches_get_by_index (index : Int) : Int := index % 12

/-- Embedding of `ChineseLunarCalendar.get_stem_branch_pair`, with stems and
branches represented by their indices. -/
def get_stem_branch_pair (number : Int) : Int × Int :=
  (stems_get_by_index ((number - 1) % 10), branches_get_by_index ((number - 1) % 12))

/-- Embedding of `ChineseLunarCalendar.get_year_stem_branch` (reference year 1864). -/
def get_year_stem_branch (lunar_year : Int) : Int × Int :=
  get_stem_branch_pair (((lunar_year - 1864) % 60) + 1)

/-- The `month_stem_base` dictionary of `get_month_stem_branch`
(`none` models the `KeyError` of a missing key). -/
def month_stem_base (year_stem_index : Int) : Option Int :=
  if year_stem_index = 0 then some 2
  else if year_stem_index = 1 then some 4
  else if year_stem_index = 2 then some 6
  else if year_stem_index = 3 then some 8
  else if year_stem_index = 4 then some 0
  else if year_stem_index = 5 then some 2
  else if year_stem_index = 6 then some 4
  else if year_stem_index = 7 then some 6
  else if year_stem_index = 8 then some 8
  else if year_stem_index = 9 then some 0
  else none

/-- Embedding of `ChineseLunarCalendar.get_month_stem_branch`, with pillars as
index pairs.  `month_offset` becomes a rational once `0.5` is
subtracted for a leap month, and `int(month_offset)` truncates it. -/
def get_month_stem_branch (lunar_year lunar_month : Int) (is_leap : Bool) :
    Option (Int × Int) :=
  let year_stem_index := ((lunar_year - 1864) % 60) % 10
  match month_stem_base year_stem_index with
  | none => none
  | some base_stem =>
    let month_offset : ℚ := ((lunar_month : ℚ) - 1) - (if is_leap then 0.5 else 0)
    some (stems_get_by_index ((base_stem + pyInt month_offset) % 10),
      branches_get_by_index ((2 + pyInt month_offset) % 12))

/-- The `days_since_ref` value of `get_day_stem_branch`: whole days since the
reference Julian Day of 1 January 1900. -/
def days_since_ref (julian_day : ℚ) : Int :=
  pyInt (julian_day - gregorian_to_julian ⟨1900, 1, 1, 0, 0, 0⟩)

/-- The `day_number` value of `get_day_stem_branch`: position in the 60-day
cycle (reference day 11), with the `0 ↦ 60` adjustment. -/
def day_number (julian_day : ℚ) : Int :=
  if (11 + days_since_ref julian_day) % 60 = 0 then 60
  else (11 + days_since_ref julian_day) % 60

/-- Embedding of `ChineseLunarCalendar.get_day_stem_branch`, with the pillar as an
index pair. -/
def get_day_stem_branch (julian_day : ℚ) : Int × Int :=
  get_stem_branch_pair (day_number julian_day)

/-- The `hour_stem_base` dictionary of `get_hour_stem_branch`
(`none` models the `KeyError` of a missing key). -/
def hour_stem_base (day_stem_index : Int) : Option Int :=
  if day_stem_index = 0 then some 0
  else if day_stem_index = 1 then some 2
  else if day_stem_index = 2 then some 4
  else if day_stem_index = 3 then some 6
  else if day_stem_index = 4 then some 8
  else if day_stem_index = 5 then some 0
  else if day_stem_index = 6 then some 2
  else if day_stem_index = 7 then some 4
  else if day_stem_index = 8 then some 6
  else if day_stem_index = 9 then some 8
  else none

/-- Embedding of `ChineseLunarCalendar.get_hour_stem_branch`, with the stem as an
index and the branch as its position in `branches` (the source finds
the branch via `get_by_hour` and then takes its list index; `none`
models the failure cases of that lookup). -/
def get_hour_stem_branch (hour : Int) (day_stem_index : Int) : Option (Int × Nat) :=
  match branches.findIdx? (fun branch => branch.is_active_time hour),
      hour_stem_base day_stem_index with
  | some branch_index, some base_stem =>
    some (stems_get_by_index ((base_stem + (branch_index : Int)) % 10), branch_index)
  | _, _ => none

/-- Python float `%` (result carries the divisor's sign), on exact
rationals. -/
def qfmod (a b : ℚ) : ℚ := a - b * ⌊a / b⌋

/-- One iteration body of `ChineseLunarCalendar.find_solar_term`: wrap
the angular difference into (−180, 180], return the current estimate
when it is below the 1e-4 threshold, else advance by `diff * 0.985`.
`solar_longitude_fn` abstracts the floating-point
`calculate_solar_longitude`. -/
def find_solar_term_step (solar_longitude_fn : ℚ → ℚ) (longitude jd : ℚ) : ℚ :=
  let current_longitude := solar_longitude_fn jd
  let diff0 := qfmod (longitude - current_longitude) 360
  let diff := if 180 < diff0 then diff0 - 360 else diff0
  if |diff| < 0.0001 then jd else jd + diff * 0.985

/-- The `for _ in range(n)` loop of `find_solar_term`, with remaining
iteration budget `n`: breaking out of the loop returns the current
estimate, and an exhausted budget returns the last estimate. -/
def find_solar_term_go (solar_longitude_fn : ℚ → ℚ) (longitude : ℚ) :
    Nat → ℚ → ℚ
  | 0, jd => jd
  | n + 1, jd =>
    let current_longitude := solar_longitude_fn jd
    let diff0 := qfmod (longitude - current_longitude) 360
    let diff := if 180 < diff0 then diff0 - 360 else diff0
    if |diff| < 0.0001 then jd
    else find_solar_term_go solar_longitude_fn longitude n (jd + diff * 0.985)

/-- Embedding of `ChineseLunarCalendar.find_solar_term` with its cap of 40
iterations; the solar-longitude series is abstracted as
`solar_longitude_fn`. -/
def find_solar_term (solar_longitude_fn : ℚ → ℚ) (longitude start_jd : ℚ) : ℚ :=
  find_solar_term_go solar_longitude_fn longitude 40 start_jd

/-- Embedding of `ChineseLunarCalendar.is_leap_month_year`, control flow only: the
astronomical quantities are abstracted, `new_moon_count` standing for
`k_end - k_start` and `has_major_term m` for the scan that tests
whether lunar month `m` contains a major solar term.  The source scans
months 1..12 and returns at the first month lacking a major term; in
all other situations control reaches the final `return True, 12`. -/
def is_leap_month_year (new_moon_count : Int) (has_major_term : Nat → Bool) :
    Bool × Nat :=
  if new_moon_count = 13 then
    match (List.range' 1 12).find? (fun month => ! has_major_term month) with
    | some month => (true, month)
    | none => (true, 12)
  else (true, 12)

theorem pyInt_intCast (n : Int) : pyInt (n : ℚ) = n := by
  unfold pyInt
  split_ifs with h
  · exact Int.floor_intCast n
  · exact Int.ceil_intCast n

theorem pyInt_of_nonneg {q : ℚ} (h : 0 ≤ q) : pyInt q = ⌊q⌋ := by
  unfold pyInt
  exact if_pos h

/-- On a nonnegative integer plus a fractional part in `[0,1)`,
Python truncation returns the integer. -/
theorem pyInt_int_add_frac (z : Int) (fr : ℚ) (hz : 0 ≤ z) (h0 : 0 ≤ fr)
    (h1 : fr < 1) : pyInt ((z : ℚ) + fr) = z := by
  have harg : (0 : ℚ) ≤ (z : ℚ) + fr := by positivity
  rw [pyInt_of_nonneg harg, Int.floor_int_add,
    Int.floor_eq_zero_iff.mpr ⟨h0, h1⟩, add_zero]

/-- Truncation of a nonnegative integer quotient is Euclidean
(= floor) division. -/
theorem pyInt_int_div (a : Int) (b : Nat) (ha : 0 ≤ a) :
    pyInt ((a : ℚ) / (b : ℚ)) = a / (b : Int) := by
  have harg : (0 : ℚ) ≤ (a : ℚ) / (b : ℚ) := by positivity
  rw [pyInt_of_nonneg harg, Rat.floor_intCast_div_natCast]

theorem gregorian_to_julian_eq (d : DateTime) :
    gregorian_to_julian d = (jdnInt d : ℚ) + timeFrac d - 1 / 2 := by
  unfold gregorian_to_julian jdnInt timeFrac
  push_cast
  norm_num
  ring

theorem timeFrac_nonneg (d : DateTime) (h : ValidDateTime d) : 0 ≤ timeFrac d := by
  obtain ⟨_, _, _, _, h5, _, h7, _, h9, _⟩ := h
  unfold timeFrac
  positivity

theorem timeFrac_lt_one (d : DateTime) (h : ValidDateTime d) : timeFrac d < 1 := by
  obtain ⟨_, _, _, _, h5, h6, h7, h8, h9, h10⟩ := h
  unfold timeFrac
  rw [div_lt_one (by norm_num)]
  exact_mod_cast (by omega : (3600 * d.hour + 60 * d.minute + d.second : Int) < 86400)

/-- Core of the Gregorian inversion: for a Julian Day number built from
a year count `y1` (year + 4800 or + 4799), a month constant `C` and a
day `dd`, the Meeus chain recovers the Julian-calendar year count and
the day offset.  The `hleap` disjunct is the 29 February case, which is
consistent exactly because of the Gregorian leap rule. -/
theorem gregInv_step (y1 dd C J : Int)
    (hy1 : 6739 ≤ y1) (hdd : 1 ≤ dd) (hC : 0 ≤ C)
    (hleap : dd + C ≤ 365 ∨
      (dd + C = 366 ∧ ((y1 % 4 = 3 ∧ ¬ y1 % 100 = 99) ∨ y1 % 400 = 399)))
    (hJ : J = dd + C + 365 * y1 + y1 / 4 - y1 / 100 + y1 / 400 - 32045) :
    dfj_c J = y1 - 84 ∧ dfj_b J - dfj_d J = dd + C + 122 ∧ 2299161 ≤ J := by
  obtain ⟨Q, qc, Rc, hsplit, hqc0, hqc4, hRc0, hRc100⟩ :
      ∃ Q qc Rc : Int, y1 = 400 * Q + 100 * qc + Rc ∧
        0 ≤ qc ∧ qc < 4 ∧ 0 ≤ Rc ∧ Rc < 100 :=
    ⟨y1 / 400, y1 % 400 / 100, y1 % 100, by omega, by omega, by omega, by omega, by omega⟩
  have h4 : y1 / 4 = 100 * Q + 25 * qc + Rc / 4 := by omega
  have h100 : y1 / 100 = 4 * Q + qc := by omega
  have h400 : y1 / 400 = Q := by omega
  have hJ2 : J = dd + C + 146097 * Q + 36524 * qc + 365 * Rc + Rc / 4 - 32045 := by omega
  have halpha : dfj_alpha J = 4 * Q + qc - 52 := by
    unfold dfj_alpha
    omega
  have halpha4 : dfj_alpha J / 4 = Q - 13 := by omega
  have hb : dfj_b J = dd + C + 146100 * Q + 36525 * qc + 365 * Rc + Rc / 4 - 30559 := by
    unfold dfj_b dfj_a
    omega
  have hc : dfj_c J = y1 - 84 := by
    unfold dfj_c
    omega
  have hd : dfj_d J = 146100 * Q + 36525 * qc + 365 * Rc + (Rc - 84) / 4 - 30660 := by
    unfold dfj_d
    omega
  have hbd : dfj_b J - dfj_d J = dd + C + 122 := by omega
  exact ⟨hc, hbd, by omega⟩

/-- Per-month finish of the Gregorian inversion.  `C` is the month
constant `(153 m' + 2) / 5`, `eExp` the expected Meeus month index
`m' + 4`, `mo` the civil month and `y1` the shifted year count. -/
theorem gregInv_finish (y y1 dd C J eExp mo : Int)
    (hy1 : 6739 ≤ y1) (hdd : 1 ≤ dd) (hC : 0 ≤ C)
    (hleap : dd + C ≤ 365 ∨
      (dd + C = 366 ∧ ((y1 % 4 = 3 ∧ ¬ y1 % 100 = 99) ∨ y1 % 400 = 399)))
    (hJ : J = dd + C + 365 * y1 + y1 / 4 - y1 / 100 + y1 / 400 - 32045)
    (heL : 306001 * eExp ≤ 10000 * (dd + C + 122))
    (heU : 10000 * (dd + C + 122) < 306001 * (eExp + 1))
    (hterm : 306001 * eExp / 10000 = C + 122)
    (hmo : (if eExp < 14 then eExp - 1 else eExp - 13) = mo)
    (hyr : (2 < mo ∧ y1 = y + 4800) ∨ (mo ≤ 2 ∧ y1 = y + 4799)) :
    dfj_year J = y ∧ dfj_month J = mo ∧ dfj_day J = dd ∧ 2299161 ≤ J := by
  obtain ⟨hc, hbd, hz⟩ := gregInv_step y1 dd C J hy1 hdd hC hleap hJ
  have he : dfj_e J = eExp := by
    unfold dfj_e
    omega
  have hm : dfj_month J = mo := by
    unfold dfj_month
    rw [he]
    exact hmo
  have hday : dfj_day J = dd := by
    unfold dfj_day
    rw [he]
    omega
  refine ⟨?_, hm, hday, hz⟩
  unfold dfj_year
  rw [hm]
  rcases hyr with ⟨h2, hy⟩ | ⟨h2, hy⟩
  · rw [if_pos h2]
    omega
  · rw [if_neg (by omega)]
    omega

/-- The integer Meeus inverse chain recovers year, month and day from
the Julian Day number of any valid Gregorian date from 1940 on, and
that number is in the post-reform branch (`≥ 2299161`). -/
theorem dfj_jdnInt (d : DateTime) (hv : ValidDateTime d) (hy : 1940 ≤ d.year) :
    dfj_year (jdnInt d) = d.year ∧ dfj_month (jdnInt d) = d.month ∧
      dfj_day (jdnInt d) = d.day ∧ 2299161 ≤ jdnInt d := by
  obtain ⟨y, mo, dd, h, mi, s⟩ := d
  obtain ⟨h1, h2, h3, h4, _⟩ := hv
  simp only at h1 h2 h3 h4 hy ⊢
  have hJ : ∀ C : Int, (153 * (mo + 12 * ((14 - mo) / 12) - 3) + 2) / 5 = C →
      jdnInt ⟨y, mo, dd, h, mi, s⟩ =
        dd + C + 365 * (y + 4800 - (14 - mo) / 12) + (y + 4800 - (14 - mo) / 12) / 4 -
          (y + 4800 - (14 - mo) / 12) / 100 + (y + 4800 - (14 - mo) / 12) / 400 - 32045 := by
    intro C hC
    unfold jdnInt
    simp only
    omega
  interval_cases mo
  · exact gregInv_finish y (y + 4799) dd 306 _ 14 1 (by omega) h3 (by omega)
      (by simp only [daysInMonthG] at h4; norm_num at h4; omega)
      (by rw [hJ 306 (by norm_num)]; omega) (by omega) (by simp only [daysInMonthG] at h4; norm_num at h4; omega)
      (by norm_num) (by norm_num) (by right; omega)
  · refine gregInv_finish y (y + 4799) dd 337 _ 15 2 (by omega) h3 (by omega)
      ?_ (by rw [hJ 337 (by norm_num)]; omega) (by omega)
      ?_ (by norm_num) (by norm_num) (by right; omega)
    · simp only [daysInMonthG, isLeapYearG] at h4
      norm_num at h4
      split_ifs at h4 with hl <;> omega
    · simp only [daysInMonthG] at h4
      norm_num at h4
      split_ifs at h4 <;> omega
  · exact gregInv_finish y (y + 4800) dd 0 _ 4 3 (by omega) h3 (by omega)
      (by simp only [daysInMonthG] at h4; norm_num at h4; omega)
      (by rw [hJ 0 (by norm_num)]; omega) (by omega) (by simp only [daysInMonthG] at h4; norm_num at h4; omega)
      (by norm_num) (by norm_num) (by left; omega)
  · exact gregInv_finish y (y + 4800) dd 31 _ 5 4 (by omega) h3 (by omega)
      (by simp only [daysInMonthG] at h4; norm_num at h4; omega)
      (by rw [hJ 31 (by norm_num)]; omega) (by omega) (by simp only [daysInMonthG] at h4; norm_num at h4; omega)
      (by norm_num) (by norm_num) (by left; omega)
  · exact gregInv_finish y (y + 4800) dd 61 _ 6 5 (by omega) h3 (by omega)
      (by simp only [daysInMonthG] at h4; norm_num at h4; omega)
      (by rw [hJ 61 (by norm_num)]; omega) (by omega) (by simp only [daysInMonthG] at h4; norm_num at h4; omega)
      (by norm_num) (by norm_num) (by left; omega)
  · exact gregInv_finish y (y + 4800) dd 92 _ 7 6 (by omega) h3 (by omega)
      (by simp only [daysInMonthG] at h4; norm_num at h4; omega)
      (by rw [hJ 92 (by norm_num)]; omega) (by omega) (by simp only [daysInMonthG] at h4; norm_num at h4; omega)
      (by norm_num) (by norm_num) (by left; omega)
  · exact gregInv_finish y (y + 4800) dd 122 _ 8 7 (by omega) h3 (by omega)
      (by simp only [daysInMonthG] at h4; norm_num at h4; omega)
      (by rw [hJ 122 (by norm_num)]; omega) (by omega) (by simp only [daysInMonthG] at h4; norm_num at h4; omega)
      (by norm_num) (by norm_num) (by left; omega)
  · exact gregInv_finish y (y + 4800) dd 153 _ 9 8 (by omega) h3 (by omega)
      (by simp only [daysInMonthG] at h4; norm_num at h4; omega)
      (by rw [hJ 153 (by norm_num)]; omega) (by omega) (by simp only [daysInMonthG] at h4; norm_num at h4; omega)
      (by norm_num) (by norm_num) (by left; omega)
  · exact gregInv_finish y (y + 4800) dd 184 _ 10 9 (by omega) h3 (by omega)
      (by simp only [daysInMonthG] at h4; norm_num at h4; omega)
      (by rw [hJ 184 (by norm_num)]; omega) (by omega) (by simp only [daysInMonthG] at h4; norm_num at h4; omega)
      (by norm_num) (by norm_num) (by left; omega)
  · exact gregInv_finish y (y + 4800) dd 214 _ 11 10 (by omega) h3 (by omega)
      (by simp only [daysInMonthG] at h4; norm_num at h4; omega)
      (by rw [hJ 214 (by norm_num)]; omega) (by omega) (by simp only [daysInMonthG] at h4; norm_num at h4; omega)
      (by norm_num) (by norm_num) (by left; omega)
  · exact gregInv_finish y (y + 4800) dd 245 _ 12 11 (by omega) h3 (by omega)
      (by simp only [daysInMonthG] at h4; norm_num at h4; omega)
      (by rw [hJ 245 (by norm_num)]; omega) (by omega) (by simp only [daysInMonthG] at h4; norm_num at h4; omega)
      (by norm_num) (by norm_num) (by left; omega)
  · exact gregInv_finish y (y + 4800) dd 275 _ 13 12 (by omega) h3 (by omega)
      (by simp only [daysInMonthG] at h4; norm_num at h4; omega)
      (by rw [hJ 275 (by norm_num)]; omega) (by omega) (by simp only [daysInMonthG] at h4; norm_num at h4; omega)
      (by norm_num) (by norm_num) (by left; omega)

theorem pyInt_int_div2 (a b : Int) (ha : 0 ≤ a) (hb : 0 ≤ b) :
    pyInt ((a : ℚ) / (b : ℚ)) = a / b := by
  obtain ⟨n, rfl⟩ := Int.eq_ofNat_of_zero_le hb
  simpa using pyInt_int_div a n ha

/-- The `alpha` truncation of `julian_to_gregorian`, in integer form. -/
theorem pyInt_alpha (z : Int) (hz : 2299161 ≤ z) :
    pyInt (((z : ℚ) - 1867216.25) / 36524.25) = dfj_alpha z := by
  have h : ((z : ℚ) - 1867216.25) / 36524.25 =
      ((4 * z - 7468865 : Int) : ℚ) / ((146097 : Int) : ℚ) := by
    rw [div_eq_div_iff (by norm_num) (by norm_num)]
    push_cast
    ring
  rw [h, pyInt_int_div2 _ _ (by omega) (by norm_num)]
  rfl

/-- The `c` truncation of `julian_to_gregorian`, in integer form. -/
theorem pyInt_c (b : Int) (hb : 123 ≤ b) :
    pyInt (((b : ℚ) - 122.1) / 365.25) = (20 * b - 2442) / 7305 := by
  have h : ((b : ℚ) - 122.1) / 365.25 =
      ((20 * b - 2442 : Int) : ℚ) / ((7305 : Int) : ℚ) := by
    rw [div_eq_div_iff (by norm_num) (by norm_num)]
    push_cast
    ring
  rw [h, pyInt_int_div2 _ _ (by omega) (by norm_num)]

/-- The `d` truncation of `julian_to_gregorian`, in integer form. -/
theorem pyInt_d (c : Int) (hc : 0 ≤ c) :
    pyInt ((365.25 : ℚ) * (c : ℚ)) = 1461 * c / 4 := by
  have h : (365.25 : ℚ) * (c : ℚ) = ((1461 * c : Int) : ℚ) / ((4 : Int) : ℚ) := by
    push_cast
    ring
  rw [h, pyInt_int_div2 _ _ (by omega) (by norm_num)]

/-- The `e` truncation of `julian_to_gregorian`, in integer form. -/
theorem pyInt_e (x : Int) (hx : 0 ≤ x) :
    pyInt ((x : ℚ) / 30.6001) = 10000 * x / 306001 := by
  have h : (x : ℚ) / 30.6001 = ((10000 * x : Int) : ℚ) / ((306001 : Int) : ℚ) := by
    rw [div_eq_div_iff (by norm_num) (by norm_num)]
    push_cast
    ring
  rw [h, pyInt_int_div2 _ _ (by omega) (by norm_num)]

/-- The last truncation (`30.6001 * e`) of `julian_to_gregorian`, in
integer form. -/
theorem pyInt_term (e : Int) (he : 0 ≤ e) :
    pyInt ((30.6001 : ℚ) * (e : ℚ)) = 306001 * e / 10000 := by
  have h : (30.6001 : ℚ) * (e : ℚ) = ((306001 * e : Int) : ℚ) / ((10000 : Int) : ℚ) := by
    push_cast
    ring
  rw [h, pyInt_int_div2 _ _ (by omega) (by norm_num)]

/-- Splitting `julian_to_gregorian` on an integer Julian Day number plus a
time-of-day fraction splits into the integer Meeus date chain and the
truncated time chain. -/
theorem julian_to_gregorian_split (z : Int) (fr : ℚ) (hz : 2299161 ≤ z)
    (h0 : 0 ≤ fr) (h1 : fr < 1) :
    julian_to_gregorian ((z : ℚ) + fr - 1 / 2) =
      ⟨dfj_year z, dfj_month z, dfj_day z,
        pyInt (fr * 24),
        pyInt ((fr * 24 - (pyInt (fr * 24) : ℚ)) * 60),
        pyInt (((fr * 24 - (pyInt (fr * 24) : ℚ)) * 60 -
          (pyInt ((fr * 24 - (pyInt (fr * 24) : ℚ)) * 60) : ℚ)) * 60)⟩ := by
  have hA : 11 ≤ dfj_alpha z := by
    unfold dfj_alpha
    omega
  have hb1 : (123 : Int) ≤ z + 1 + dfj_alpha z - dfj_alpha z / 4 + 1524 := by omega
  have hc1 : (0 : Int) ≤ (20 * (z + 1 + dfj_alpha z - dfj_alpha z / 4 + 1524) - 2442) / 7305 := by
    omega
  have hbd1 : (0 : Int) ≤ z + 1 + dfj_alpha z - dfj_alpha z / 4 + 1524 -
      1461 * ((20 * (z + 1 + dfj_alpha z - dfj_alpha z / 4 + 1524) - 2442) / 7305) / 4 := by
    omega
  have he1 : (0 : Int) ≤ 10000 * (z + 1 + dfj_alpha z - dfj_alpha z / 4 + 1524 -
      1461 * ((20 * (z + 1 + dfj_alpha z - dfj_alpha z / 4 + 1524) - 2442) / 7305) / 4) /
        306001 := by
    omega
  simp only [julian_to_gregorian]
  rw [show ((z : ℚ) + fr - 1 / 2) + 0.5 = (z : ℚ) + fr by norm_num]
  rw [pyInt_int_add_frac z fr (by omega) h0 h1]
  rw [show (z : ℚ) + fr - (z : ℚ) = fr by ring]
  rw [if_neg (by omega : ¬ z < 2299161)]
  rw [pyInt_alpha z hz]
  rw [pyInt_c _ hb1]
  rw [pyInt_d _ hc1]
  rw [show ((z + 1 + dfj_alpha z - dfj_alpha z / 4 + 1524 : Int) : ℚ) -
      ((1461 * ((20 * (z + 1 + dfj_alpha z - dfj_alpha z / 4 + 1524) - 2442) / 7305) / 4 : Int) : ℚ) =
      ((z + 1 + dfj_alpha z - dfj_alpha z / 4 + 1524 -
        1461 * ((20 * (z + 1 + dfj_alpha z - dfj_alpha z / 4 + 1524) - 2442) / 7305) / 4 : Int) : ℚ) by
    push_cast
    ring]
  rw [pyInt_e _ hbd1]
  rw [pyInt_term _ he1]
  simp only [dfj_year, dfj_month, dfj_day, dfj_e, dfj_d, dfj_c, dfj_b, dfj_a]

/-- The truncated time-of-day chain of `julian_to_gregorian` recovers
hour, minute and second exactly from the fraction `timeFrac`. -/
theorem time_chain (d : DateTime) (hv : ValidDateTime d) :
    pyInt (timeFrac d * 24) = d.hour ∧
      pyInt ((timeFrac d * 24 - (pyInt (timeFrac d * 24) : ℚ)) * 60) = d.minute ∧
      pyInt (((timeFrac d * 24 - (pyInt (timeFrac d * 24) : ℚ)) * 60 -
        (pyInt ((timeFrac d * 24 - (pyInt (timeFrac d * 24) : ℚ)) * 60) : ℚ)) * 60) =
        d.second := by
  obtain ⟨_, _, _, _, h5, h6, h7, h8, h9, h10⟩ := hv
  have e1 : timeFrac d * 24 =
      ((3600 * d.hour + 60 * d.minute + d.second : Int) : ℚ) / ((3600 : Int) : ℚ) := by
    unfold timeFrac
    push_cast
    ring
  have p1 : pyInt (timeFrac d * 24) = d.hour := by
    rw [e1, pyInt_int_div2 _ _ (by omega) (by norm_num)]
    omega
  have e2 : (timeFrac d * 24 - (d.hour : ℚ)) * 60 =
      ((60 * d.minute + d.second : Int) : ℚ) / ((60 : Int) : ℚ) := by
    unfold timeFrac
    push_cast
    ring
  have p2 : pyInt ((timeFrac d * 24 - (d.hour : ℚ)) * 60) = d.minute := by
    rw [e2, pyInt_int_div2 _ _ (by omega) (by norm_num)]
    omega
  refine ⟨p1, ?_, ?_⟩
  · rw [p1]
    exact p2
  · rw [p1, p2]
    have e3 : ((timeFrac d * 24 - (d.hour : ℚ)) * 60 - (d.minute : ℚ)) * 60 =
        ((d.second : Int) : ℚ) := by
      unfold timeFrac
      push_cast
      ring
    rw [e3, pyInt_intCast]

/-- C3 (amended): for every valid civil timestamp with year at least
1940, converting to a Julian Day and back (`julian_to_gregorian` after
`gregorian_to_julian`) reproduces all six fields exactly, provided the
float arithmetic is carried out exactly (this file's rational
idealization of the pipeline).  Under binary64 arithmetic, modelled by
`gregorian_to_julian64` / `julian_to_gregorian64`, six-field exactness
fails: rounding the day fraction onto the Julian Day's 2^-31 grid can
cost the truncating seconds chain one second. -/
theorem julian_roundtrip (d : DateTime) (hv : ValidDateTime d) (hy : 1940 ≤ d.year) :
    julian_to_gregorian (gregorian_to_julian d) = d := by
  obtain ⟨hyear, hmonth, hday, hz⟩ := dfj_jdnInt d hv hy
  obtain ⟨p1, p2, p3⟩ := time_chain d hv
  rw [gregorian_to_julian_eq d,
    julian_to_gregorian_split (jdnInt d) (timeFrac d) hz (timeFrac_nonneg d hv)
      (timeFrac_lt_one d hv)]
  obtain ⟨y, mo, dd, h, mi, s⟩ := d
  simp only [DateTime.mk.injEq]
  exact ⟨hyear, hmonth, hday, p1, p2, p3⟩

/-- Witness for C3 at the concrete timestamp 2024-02-29 23:45:31. -/
theorem julian_roundtrip_witness :
    ValidDateTime ⟨2024, 2, 29, 23, 45, 31⟩ ∧ 1940 ≤ (2024 : Int) ∧
      julian_to_gregorian (gregorian_to_julian ⟨2024, 2, 29, 23, 45, 31⟩) =
        ⟨2024, 2, 29, 23, 45, 31⟩ :=
  ⟨by decide, by norm_num,
    julian_roundtrip ⟨2024, 2, 29, 23, 45, 31⟩ (by decide) (by norm_num)⟩

/-- C1: `is_leap_month_year` never reports the absence of a leap
month: its boolean is `true` for every new-moon count, and in
particular a year whose count is 12 (an ordinary year) still gets the
month-12 fallback answer `(true, 12)`, contradicting the docstring
and the spec. -/
theorem is_leap_month_year_always_leap (new_moon_count : Int)
    (has_major_term : Nat → Bool) :
    (is_leap_month_year new_moon_count has_major_term).1 = true ∧
      is_leap_month_year 12 has_major_term = (true, 12) := by
  constructor
  · unfold is_leap_month_year
    split_ifs with h
    · cases (List.range' 1 12).find? (fun month => ! has_major_term month) <;> rfl
    · rfl
  · unfold is_leap_month_year
    norm_num

/-- C4 counter-evidence: in lunar year 1984 the pillar computed for
the leap month flagged 2 coincides with regular month 1's pillar and
differs from regular month 2's pillar, because `int(2 - 1 - 0.5)`
truncates to 0. -/
theorem month_pillar_leap_mismatch :
    get_month_stem_branch 1984 2 true = get_month_stem_branch 1984 1 false ∧
      get_month_stem_branch 1984 2 true ≠ get_month_stem_branch 1984 2 false := by
  have h1 : get_month_stem_branch 1984 2 true = some (2, 2) := by
    simp only [get_month_stem_branch, month_stem_base, stems_get_by_index,
      branches_get_by_index, pyInt]
    norm_num
  have h2 : get_month_stem_branch 1984 1 false = some (2, 2) := by
    simp only [get_month_stem_branch, month_stem_base, stems_get_by_index,
      branches_get_by_index, pyInt]
    norm_num
  have h3 : get_month_stem_branch 1984 2 false = some (3, 3) := by
    simp only [get_month_stem_branch, month_stem_base, stems_get_by_index,
      branches_get_by_index, pyInt]
    norm_num
  rw [h1, h2, h3]
  norm_num

/-- Every stem base the `hour_stem_base` dictionary yields is even. -/
theorem hour_stem_base_even (i base : Int) (h : hour_stem_base i = some base) :
    base % 2 = 0 := by
  unfold hour_stem_base at h
  split_ifs at h
  all_goals first
    | exact Option.noConfusion h
    | (injection h with h2; omega)

/-- C5: every stem-branch pair the engine generates satisfies the
sexagenary parity invariant: stem index and branch index have the same
parity.  This holds for `get_stem_branch_pair` at every integer, for
every month pillar produced by `get_month_stem_branch` (leap or not),
and for every hour pillar produced by `get_hour_stem_branch`. -/
theorem sexagenary_parity (n lunar_year lunar_month : Int) (is_leap : Bool)
    (hour day_stem_index : Int) :
    ((get_stem_branch_pair n).1 % 2 = (get_stem_branch_pair n).2 % 2) ∧
      (∀ p : Int × Int, get_month_stem_branch lunar_year lunar_month is_leap = some p →
        p.1 % 2 = p.2 % 2) ∧
      (∀ q : Int × Nat, get_hour_stem_branch hour day_stem_index = some q →
        q.1 % 2 = (q.2 : Int) % 2) := by
  refine ⟨?_, ?_, ?_⟩
  · unfold get_stem_branch_pair stems_get_by_index branches_get_by_index
    simp only
    omega
  · intro p hp
    unfold get_month_stem_branch at hp
    obtain ⟨k, hk, hk0, hk1⟩ :
        ∃ k, ((lunar_year - 1864) % 60) % 10 = k ∧ 0 ≤ k ∧ k < 10 :=
      ⟨_, rfl, by omega, by omega⟩
    rw [hk] at hp
    interval_cases k <;>
    · norm_num [month_stem_base] at hp
      subst hp
      simp only [stems_get_by_index, branches_get_by_index]
      omega
  · intro q hq
    unfold get_hour_stem_branch at hq
    revert hq
    cases branches.findIdx? (fun branch => branch.is_active_time hour) with
    | none =>
      intro hq
      exact absurd hq (by simp)
    | some branch_index =>
      cases hsb : hour_stem_base day_stem_index with
      | none =>
        intro hq
        exact absurd hq (by simp)
      | some base_stem =>
        intro hq
        simp only [Option.some.injEq] at hq
        subst hq
        have hbase := hour_stem_base_even day_stem_index base_stem hsb
        simp only [stems_get_by_index]
        omega

/-- Witness for C5 at concrete inputs (month pillar of leap month 3 of
2024; hour pillar of hour 23 on a day with stem index 4). -/
theorem sexagenary_parity_witness :
    ((get_stem_branch_pair 38).1 % 2 = (get_stem_branch_pair 38).2 % 2) ∧
      get_month_stem_branch 2024 3 true = some (3, 3) ∧
      (((3 : Int), (3 : Int)).1 % 2 = ((3 : Int), (3 : Int)).2 % 2) ∧
      get_hour_stem_branch 23 4 = some (8, 0) ∧
      (((8 : Int), (0 : Nat)).1 % 2 = (((8 : Int), (0 : Nat)).2 : Int) % 2) := by
  have hm : get_month_stem_branch 2024 3 true = some (3, 3) := by
    simp only [get_month_stem_branch, month_stem_base, stems_get_by_index,
      branches_get_by_index, pyInt]
    norm_num
  have hh : get_hour_stem_branch 23 4 = some (8, 0) := by decide
  exact ⟨(sexagenary_parity 38 2024 3 true 23 4).1, hm,
    (sexagenary_parity 38 2024 3 true 23 4).2.1 (3, 3) hm, hh,
    (sexagenary_parity 38 2024 3 true 23 4).2.2 (8, 0) hh⟩

/-- C7: on the civil hours 0..23 the branch-by-hour lookup matches
exactly one branch (so `get_by_hour` is total there and unambiguous),
and hours 23 and 0 both resolve to the midnight-wrapping Rat branch
with hour range (23, 1). -/
theorem get_by_hour_total (hour : Int) (h0 : 0 ≤ hour) (h1 : hour < 24) :
    (branches.filter (fun branch => branch.is_active_time hour)).length = 1 ∧
      (get_by_hour hour).isSome = true ∧
      get_by_hour 23 = get_by_hour 0 ∧
      get_by_hour 0 = some ⟨"Rat", 23, 1⟩ := by
  refine ⟨?_, ?_, by decide, by decide⟩
  · interval_cases hour <;> decide
  · interval_cases hour <;> decide

/-- Witness for C7 at hour 5. -/
theorem get_by_hour_total_witness :
    (branches.filter (fun branch => branch.is_active_time 5)).length = 1 ∧
      (get_by_hour 5).isSome = true ∧
      get_by_hour 23 = get_by_hour 0 ∧
      get_by_hour 0 = some ⟨"Rat", 23, 1⟩ :=
  get_by_hour_total 5 (by norm_num) (by norm_num)

/-- The loop of `find_solar_term` with budget `n` computes exactly `n`
iterations of the step function (a converged state is a fixed point of
the step, so breaking early and keeping on stepping agree). -/
theorem find_solar_term_go_eq (solar_longitude_fn : ℚ → ℚ) (longitude : ℚ) :
    ∀ (n : Nat) (jd : ℚ),
      find_solar_term_go solar_longitude_fn longitude n jd =
        (find_solar_term_step solar_longitude_fn longitude)^[n] jd := by
  intro n
  induction n with
  | zero =>
    intro jd
    rfl
  | succ n ih =>
    intro jd
    have hstep : find_solar_term_step solar_longitude_fn longitude jd =
        if |(if 180 < qfmod (longitude - solar_longitude_fn jd) 360
            then qfmod (longitude - solar_longitude_fn jd) 360 - 360
            else qfmod (longitude - solar_longitude_fn jd) 360)| < 0.0001 then jd
        else jd + (if 180 < qfmod (longitude - solar_longitude_fn jd) 360
            then qfmod (longitude - solar_longitude_fn jd) 360 - 360
            else qfmod (longitude - solar_longitude_fn jd) 360) * 0.985 := rfl
    have hgo : find_solar_term_go solar_longitude_fn longitude (n + 1) jd =
        if |(if 180 < qfmod (longitude - solar_longitude_fn jd) 360
            then qfmod (longitude - solar_longitude_fn jd) 360 - 360
            else qfmod (longitude - solar_longitude_fn jd) 360)| < 0.0001 then jd
        else find_solar_term_go solar_longitude_fn longitude n
          (jd + (if 180 < qfmod (longitude - solar_longitude_fn jd) 360
            then qfmod (longitude - solar_longitude_fn jd) 360 - 360
            else qfmod (longitude - solar_longitude_fn jd) 360) * 0.985) := rfl
    rw [Function.iterate_succ_apply, hgo]
    by_cases h : |(if 180 < qfmod (longitude - solar_longitude_fn jd) 360
        then qfmod (longitude - solar_longitude_fn jd) 360 - 360
        else qfmod (longitude - solar_longitude_fn jd) 360)| < 0.0001
    · rw [if_pos h]
      have hfix : find_solar_term_step solar_longitude_fn longitude jd = jd := by
        rw [hstep, if_pos h]
      rw [hfix, Function.iterate_fixed hfix]
    · rw [if_neg h]
      have hupd : find_solar_term_step solar_longitude_fn longitude jd =
          jd + (if 180 < qfmod (longitude - solar_longitude_fn jd) 360
            then qfmod (longitude - solar_longitude_fn jd) 360 - 360
            else qfmod (longitude - solar_longitude_fn jd) 360) * 0.985 := by
        rw [hstep, if_neg h]
      rw [hupd, ih]

/-- C8: for every solar-longitude oracle, target longitude and start
value, `find_solar_term` equals exactly 40 applications of its step
function: the loop performs at most 40 iterations, a converged state
is simply held fixed (early break), and when the wrapped difference
never falls below 1e-4 the 40th estimate is returned — there is no
error outcome. -/
theorem find_solar_term_bounded (solar_longitude_fn : ℚ → ℚ)
    (longitude start_jd : ℚ) :
    find_solar_term solar_longitude_fn longitude start_jd =
      (find_solar_term_step solar_longitude_fn longitude)^[40] start_jd :=
  find_solar_term_go_eq solar_longitude_fn longitude 40 start_jd

/-- C9: the day pillar follows the continuous 60-day cycle in the form
`((11 + daysSinceRef - 1) mod 60) + 1` (the code's `0 ↦ 60` wrapping
is exactly that), and the reference timestamp 1900-01-01 00:00:00 gets
day number 11. -/
theorem day_pillar_formula :
    (∀ julian_day : ℚ, day_number julian_day =
        (11 + days_since_ref julian_day - 1) % 60 + 1) ∧
      day_number (gregorian_to_julian ⟨1900, 1, 1, 0, 0, 0⟩) = 11 := by
  constructor
  · intro jd
    unfold day_number
    split_ifs with h <;> omega
  · have href : days_since_ref (gregorian_to_julian ⟨1900, 1, 1, 0, 0, 0⟩) = 0 := by
      unfold days_since_ref
      rw [sub_self]
      norm_num [pyInt]
    unfold day_number
    rw [href]
    norm_num

/-- Lower bound on the Julian Day number of a valid date from 1940 on
(2429630 is the JDN of 1940-01-01 at the following noon). -/
theorem jdnInt_lb (d : DateTime) (hv : ValidDateTime d) (hy : 1940 ≤ d.year) :
    2429630 ≤ jdnInt d := by
  obtain ⟨y, mo, dd, h, mi, s⟩ := d
  obtain ⟨h1, h2, h3, _⟩ := hv
  simp only at h1 h2 h3 hy
  unfold jdnInt
  simp only
  interval_cases mo <;> omega

theorem jdnInt_base : jdnInt ⟨1900, 1, 1, 0, 0, 0⟩ = 2415021 := by decide

theorem timeFrac_base : timeFrac ⟨1900, 1, 1, 0, 0, 0⟩ = 0 := by
  norm_num [timeFrac]

/-- For a valid date from 1940 on, the whole-day counter of the day
pillar is the difference of Julian Day numbers — independent of the
time of day. -/
theorem days_since_ref_eq (d : DateTime) (hv : ValidDateTime d)
    (hy : 1940 ≤ d.year) :
    days_since_ref (gregorian_to_julian d) = jdnInt d - 2415021 := by
  unfold days_since_ref
  rw [gregorian_to_julian_eq d, gregorian_to_julian_eq ⟨1900, 1, 1, 0, 0, 0⟩,
    jdnInt_base, timeFrac_base]
  have heq : (jdnInt d : ℚ) + timeFrac d - 1 / 2 - (((2415021 : Int) : ℚ) + 0 - 1 / 2) =
      ((jdnInt d - 2415021 : Int) : ℚ) + timeFrac d := by
    push_cast
    ring
  rw [heq, pyInt_int_add_frac _ _ (by have := jdnInt_lb d hv hy; omega)
    (timeFrac_nonneg d hv) (timeFrac_lt_one d hv)]

/-- C10: the day pillar of a timestamp with year at least 1940 depends
only on the civil date: two valid timestamps on the same civil day get
the same day stem and branch whatever their times of day (so the
pillar changes at civil midnight, not at the 23:00 start of the
midnight branch period). -/
theorem day_pillar_date_only (d1 d2 : DateTime) (hv1 : ValidDateTime d1)
    (hv2 : ValidDateTime d2) (hy : 1940 ≤ d1.year) (hyy : d1.year = d2.year)
    (hmo : d1.month = d2.month) (hdy : d1.day = d2.day) :
    get_day_stem_branch (gregorian_to_julian d1) =
      get_day_stem_branch (gregorian_to_julian d2) := by
  have hj : jdnInt d1 = jdnInt d2 := by
    unfold jdnInt
    rw [hyy, hmo, hdy]
  unfold get_day_stem_branch day_number
  rw [days_since_ref_eq d1 hv1 hy, days_since_ref_eq d2 hv2 (hyy ▸ hy), hj]

/-- Witness for C10: 23:59:59 and 00:00:00 of 1950-06-15 share the
day pillar. -/
theorem day_pillar_date_only_witness :
    ValidDateTime ⟨1950, 6, 15, 23, 59, 59⟩ ∧ ValidDateTime ⟨1950, 6, 15, 0, 0, 0⟩ ∧
      get_day_stem_branch (gregorian_to_julian ⟨1950, 6, 15, 23, 59, 59⟩) =
        get_day_stem_branch (gregorian_to_julian ⟨1950, 6, 15, 0, 0, 0⟩) :=
  ⟨by decide, by decide,
    day_pillar_date_only ⟨1950, 6, 15, 23, 59, 59⟩ ⟨1950, 6, 15, 0, 0, 0⟩
      (by decide) (by decide) (by norm_num) rfl rfl rfl⟩

theorem fl64_zero : fl64 0 = 0 := by
  simp [fl64]

/-- Pin down the binade exponent of a positive rational. -/
theorem int_log_eq_of_bounds {q : ℚ} {E : ℤ} (hq : 0 < q)
    (h1 : (2 : ℚ) ^ E ≤ q) (h2 : q < (2 : ℚ) ^ (E + 1)) :
    Int.log 2 q = E := by
  have ha : E ≤ Int.log 2 q := by
    refine (Int.zpow_le_iff_le_log (by norm_num) hq).mp ?_
    exact_mod_cast h1
  have hb2 : Int.log 2 q < E + 1 := by
    refine (Int.lt_zpow_iff_log_lt (by norm_num) hq).mp ?_
    exact_mod_cast h2
  omega

/-- Evaluation rule for `fl64` when the value rounds down: `E` is the
binade exponent, `m` the 53-bit significand of the result. -/
theorem fl64_round_down (q v : ℚ) (E m : ℤ)
    (h0 : 0 < q) (hE1 : (2 : ℚ) ^ E ≤ q) (hE2 : q < (2 : ℚ) ^ (E + 1))
    (hm1 : (m : ℚ) * (2 : ℚ) ^ (E - 52) ≤ q)
    (hm2 : q - (m : ℚ) * (2 : ℚ) ^ (E - 52) < (2 : ℚ) ^ (E - 53))
    (hv : v = (m : ℚ) * (2 : ℚ) ^ (E - 52)) :
    fl64 q = v := by
  have hu : (0 : ℚ) < (2 : ℚ) ^ (E - 52) := by positivity
  have h2 : (2 : ℚ) ^ (E - 52) = (2 : ℚ) ^ (E - 53) * 2 := by
    rw [← zpow_add_one₀ (by norm_num : (2 : ℚ) ≠ 0)]
    congr 1
    omega
  have hlog : Int.log 2 q = E := int_log_eq_of_bounds h0 hE1 hE2
  have hfloor : ⌊q / (2 : ℚ) ^ (E - 52)⌋ = m := by
    rw [Int.floor_eq_iff]
    constructor
    · rw [le_div_iff₀ hu]
      exact hm1
    · rw [div_lt_iff₀ hu]
      nlinarith [hm2, hu]
  have hr : q / (2 : ℚ) ^ (E - 52) - (m : ℚ) < 1 / 2 := by
    rw [sub_lt_iff_lt_add, div_lt_iff₀ hu]
    nlinarith [hm2]
  simp only [fl64]
  rw [if_neg h0.ne', abs_of_pos h0, hlog, hfloor, if_pos hr,
    if_neg (not_lt.mpr h0.le)]
  rw [hv]
  ring

/-- Evaluation rule for `fl64` when the value rounds up. -/
theorem fl64_round_up (q v : ℚ) (E m : ℤ)
    (h0 : 0 < q) (hE1 : (2 : ℚ) ^ E ≤ q) (hE2 : q < (2 : ℚ) ^ (E + 1))
    (hm1 : (m : ℚ) * (2 : ℚ) ^ (E - 52) ≤ q)
    (hm3 : q < ((m : ℚ) + 1) * (2 : ℚ) ^ (E - 52))
    (hm2 : (2 : ℚ) ^ (E - 53) < q - (m : ℚ) * (2 : ℚ) ^ (E - 52))
    (hv : v = ((m : ℚ) + 1) * (2 : ℚ) ^ (E - 52)) :
    fl64 q = v := by
  have hu : (0 : ℚ) < (2 : ℚ) ^ (E - 52) := by positivity
  have h2 : (2 : ℚ) ^ (E - 52) = (2 : ℚ) ^ (E - 53) * 2 := by
    rw [← zpow_add_one₀ (by norm_num : (2 : ℚ) ≠ 0)]
    congr 1
    omega
  have hlog : Int.log 2 q = E := int_log_eq_of_bounds h0 hE1 hE2
  have hfloor : ⌊q / (2 : ℚ) ^ (E - 52)⌋ = m := by
    rw [Int.floor_eq_iff]
    constructor
    · rw [le_div_iff₀ hu]
      exact hm1
    · rw [div_lt_iff₀ hu]
      nlinarith [hm3]
  have hr : (1 : ℚ) / 2 < q / (2 : ℚ) ^ (E - 52) - (m : ℚ) := by
    rw [lt_sub_iff_add_lt, lt_div_iff₀ hu]
    nlinarith [hm2, h2]
  simp only [fl64]
  rw [if_neg h0.ne', abs_of_pos h0, hlog, hfloor, if_neg (not_lt.mpr hr.le),
    if_pos hr, if_neg (not_lt.mpr h0.le)]
  rw [hv]
  push_cast
  ring

/-- C3 counter-evidence: under binary64 arithmetic the Julian-Day
round trip is not exact to the second: the valid timestamp
1940-01-01 00:00:01 comes back as 1940-01-01 00:00:00 (the day
fraction snaps down to the 2^-31 grid below one second, and the
truncating seconds chain then yields 0). -/
theorem julian_roundtrip_float_counterexample :
    julian_to_gregorian64 (gregorian_to_julian64 ⟨1940, 1, 1, 0, 0, 1⟩) =
        ⟨1940, 1, 1, 0, 0, 0⟩ ∧
      julian_to_gregorian64 (gregorian_to_julian64 ⟨1940, 1, 1, 0, 0, 1⟩) ≠
        ⟨1940, 1, 1, 0, 0, 1⟩ := by
  have hs3600 : fl64 (1 / 3600) = 5124095576030431 / 18446744073709551616 :=
    fl64_round_down (1 / 3600) _ (-12) 5124095576030431 (by norm_num) (by norm_num) (by norm_num) (by norm_num) (by norm_num) (by norm_num)
  have hkeep1 : fl64 (5124095576030431 / 18446744073709551616) = 5124095576030431 / 18446744073709551616 :=
    fl64_round_down (5124095576030431 / 18446744073709551616) _ (-12) 5124095576030431 (by norm_num) (by norm_num) (by norm_num) (by norm_num) (by norm_num) (by norm_num)
  have hdiv24 : fl64 (5124095576030431 / 442721857769029238784) = 6832127434707241 / 590295810358705651712 :=
    fl64_round_down (5124095576030431 / 442721857769029238784) _ (-17) 6832127434707241 (by norm_num) (by norm_num) (by norm_num) (by norm_num) (by norm_num) (by norm_num)
  have hjdnsum : fl64 (1434200409728654140003733801 / 590295810358705651712) = 5217590695715095 / 2147483648 :=
    fl64_round_down (1434200409728654140003733801 / 590295810358705651712) _ (21) 5217590695715095 (by norm_num) (by norm_num) (by norm_num) (by norm_num) (by norm_num) (by norm_num)
  have hsub05 : fl64 (5217589621973271 / 2147483648) = 5217589621973271 / 2147483648 :=
    fl64_round_down (5217589621973271 / 2147483648) _ (21) 5217589621973271 (by norm_num) (by norm_num) (by norm_num) (by norm_num) (by norm_num) (by norm_num)
  have hg : gregorian_to_julian64 ⟨1940, 1, 1, 0, 0, 1⟩ =
      5217589621973271 / 2147483648 := by
    norm_num [gregorian_to_julian64, fl64_zero, hs3600, hkeep1, hdiv24, hjdnsum, hsub05]
  have hadd05 : fl64 (5217590695715095 / 2147483648) = 5217590695715095 / 2147483648 :=
    fl64_round_down (5217590695715095 / 2147483648) _ (21) 5217590695715095 (by norm_num) (by norm_num) (by norm_num) (by norm_num) (by norm_num) (by norm_num)
  have hfsub : fl64 (24855 / 2147483648) = 24855 / 2147483648 :=
    fl64_round_down (24855 / 2147483648) _ (-17) 6832090377093120 (by norm_num) (by norm_num) (by norm_num) (by norm_num) (by norm_num) (by norm_num)
  have hasub : fl64 (2249655 / 4) = 2249655 / 4 :=
    fl64_round_down (2249655 / 4) _ (19) 4831097326141440 (by norm_num) (by norm_num) (by norm_num) (by norm_num) (by norm_num) (by norm_num)
  have hadiv : fl64 (749885 / 48699) = 8668509123828837 / 562949953421312 :=
    fl64_round_down (749885 / 48699) _ (3) 8668509123828837 (by norm_num) (by norm_num) (by norm_num) (by norm_num) (by norm_num) (by norm_num)
  have hlit1221 : fl64 (1221 / 10) = 4296011832046387 / 35184372088832 :=
    fl64_round_down (1221 / 10) _ (6) 8592023664092774 (by norm_num) (by norm_num) (by norm_num) (by norm_num) (by norm_num) (by norm_num)
  have hcsub : fl64 (85534788326257380557 / 35184372088832) = 5220629170303795 / 2147483648 :=
    fl64_round_down (85534788326257380557 / 35184372088832) _ (21) 5220629170303795 (by norm_num) (by norm_num) (by norm_num) (by norm_num) (by norm_num) (by norm_num)
  have hcdiv : fl64 (5220629170303795 / 784368402432) = 1829542871454855 / 274877906944 :=
    fl64_round_up (5220629170303795 / 784368402432) _ (12) 7318171485819419 (by norm_num) (by norm_num) (by norm_num) (by norm_num) (by norm_num) (by norm_num) (by norm_num)
  have hdmul : fl64 (9722955 / 4) = 9722955 / 4 :=
    fl64_round_down (9722955 / 4) _ (21) 5219971718184960 (by norm_num) (by norm_num) (by norm_num) (by norm_num) (by norm_num) (by norm_num)
  have hlit306001 : fl64 (306001 / 10000) = 8613162434843745 / 281474976710656 :=
    fl64_round_up (306001 / 10000) _ (4) 8613162434843744 (by norm_num) (by norm_num) (by norm_num) (by norm_num) (by norm_num) (by norm_num) (by norm_num)
  have hediv : fl64 (40250921669623808 / 2871054144947915) = 3946155895205291 / 281474976710656 :=
    fl64_round_up (40250921669623808 / 2871054144947915) _ (3) 7892311790410581 (by norm_num) (by norm_num) (by norm_num) (by norm_num) (by norm_num) (by norm_num) (by norm_num)
  have htmul : fl64 (60292137043906215 / 140737488355328) = 7536517130488277 / 17592186044416 :=
    fl64_round_up (60292137043906215 / 140737488355328) _ (8) 7536517130488276 (by norm_num) (by norm_num) (by norm_num) (by norm_num) (by norm_num) (by norm_num) (by norm_num)
  have hhmul : fl64 (74565 / 268435456) = 74565 / 268435456 :=
    fl64_round_down (74565 / 268435456) _ (-12) 5124067782819840 (by norm_num) (by norm_num) (by norm_num) (by norm_num) (by norm_num) (by norm_num)
  have hmmul : fl64 (1118475 / 67108864) = 1118475 / 67108864 :=
    fl64_round_down (1118475 / 67108864) _ (-6) 4803813546393600 (by norm_num) (by norm_num) (by norm_num) (by norm_num) (by norm_num) (by norm_num)
  have hsmul : fl64 (16777125 / 16777216) = 16777125 / 16777216 :=
    fl64_round_down (16777125 / 16777216) _ (-1) 9007150399488000 (by norm_num) (by norm_num) (by norm_num) (by norm_num) (by norm_num) (by norm_num)
  have hj : julian_to_gregorian64 (5217589621973271 / 2147483648) =
      ⟨1940, 1, 1, 0, 0, 0⟩ := by
    norm_num [julian_to_gregorian64, pyInt, hadd05, hfsub, hasub, hadiv, hlit1221,
      hcsub, hcdiv, hdmul, hlit306001, hediv, htmul, hhmul, hmmul, hsmul]
  rw [hg, hj]
  exact ⟨rfl, by decide⟩
